import Mathlib

/-!
Verification of the statistics/analysis module of the thyroid backend
(`classifyThyroid`, `generateInterpretation`, `linearRegression`,
`calculateStdDev`, `detectAnomalies`, and the `/predict` handler).

Numbers are modelled as real numbers; JavaScript's number-to-string
conversion (used only inside interpolated message strings) is modelled as
an explicit rendering function `render : ℝ → String` passed to the
functions that need it.  `Number(x.toFixed(2))` is modelled by `round2`
(round half-up at the second decimal).  The `/predict` handler is modelled
as a function from the date-ordered record series to `Except String
PredictionResult`, mirroring its early `400` return.
-/

namespace ThyroidAI

/-- One thyroid lab record (`ThyroidRecord` model).  Patient, doctor and
date are irrelevant to the analysis: the handler receives the series
already ordered by date, so the model takes the ordered list directly. -/
structure ThyroidRecord where
  TSH : ℝ
  T3 : ℝ
  T4 : ℝ

instance : Inhabited ThyroidRecord := ⟨⟨0, 0, 0⟩⟩

/-- `Number(x.toFixed(2))`: rounding to two decimal places. -/
noncomputable def round2 (x : ℝ) : ℝ := (round (x * 100) : ℤ) / 100

/-- `classifyThyroid(TSH, T3, T4)` from the source: three guarded returns
in priority order, then the borderline fall-through. -/
noncomputable def classifyThyroid (TSH T3 T4 : ℝ) : String :=
  if 0.4 ≤ TSH ∧ TSH ≤ 4.0 ∧ 0.8 ≤ T3 ∧ T3 ≤ 2.0 ∧ 5.0 ≤ T4 ∧ T4 ≤ 12.0 then
    "Normal"
  else if 4.0 < TSH ∧ (T3 < 0.8 ∨ T4 < 5.0) then
    "Hypothyroidism"
  else if TSH < 0.4 ∧ (2.0 < T3 ∨ 12.0 < T4) then
    "Hyperthyroidism"
  else
    "Borderline / Needs Medical Review"

/-- `generateInterpretation(classification, TSH)` from the source.
`render` models JavaScript's implicit number-to-string conversion in the
template literals. -/
def generateInterpretation (render : ℝ → String) (classification : String) (TSH : ℝ) :
    String :=
  if classification = "Normal" then
    "Your thyroid hormone levels are within normal clinical range."
  else if classification = "Hypothyroidism" then
    "Elevated TSH (" ++ render TSH ++ ") suggests reduced thyroid activity. Consultation advised."
  else if classification = "Hyperthyroidism" then
    "Low TSH (" ++ render TSH ++ ") suggests overactive thyroid function. Medical evaluation recommended."
  else
    "Borderline thyroid values detected. Further evaluation recommended."

/-- `sumX` in `linearRegression`: the sum of `xValues = [0, …, n−1]`. -/
def sumIndices (n : ℕ) : ℝ := ((List.range n).map (fun i : ℕ => (i : ℝ))).sum

/-- `sumXX` in `linearRegression`: `xValues.reduce((sum, x) => sum + x * x, 0)`. -/
def sumSqIndices (n : ℕ) : ℝ := ((List.range n).map (fun i : ℕ => (i : ℝ) * i)).sum

/-- `sumXY` in `linearRegression`:
`xValues.reduce((sum, x, i) => sum + x * values[i], 0)`; the element of
`xValues` at position `i` is `i` itself, and `values[i]` is in bounds for
every such `i`, so `getD _ 0` is exact. -/
noncomputable def sumXY (values : List ℝ) : ℝ :=
  ((List.range values.length).map (fun i : ℕ => (i : ℝ) * values.getD i 0)).sum

/-- The denominator `n * sumXX - sumX * sumX` of the slope in
`linearRegression`. -/
def regressionDenominator (n : ℕ) : ℝ :=
  (n : ℝ) * sumSqIndices n - sumIndices n * sumIndices n

/-- `linearRegression(values)` from the source: ordinary least squares over
`x = 0..n−1`, returned as the pair `(slope, intercept)`. -/
noncomputable def linearRegression (values : List ℝ) : ℝ × ℝ :=
  let n : ℝ := values.length
  let sumX := sumIndices values.length
  let sumY := values.sum
  let slope := (n * sumXY values - sumX * sumY) / regressionDenominator values.length
  let intercept := (sumY - slope * sumX) / n
  (slope, intercept)

/-- `calculateStdDev(values)` from the source: population standard
deviation (variance divides by `values.length`). -/
noncomputable def calculateStdDev (values : List ℝ) : ℝ :=
  let mean := values.sum / (values.length : ℝ)
  let variance := (values.map (fun value => (value - mean) ^ 2)).sum / (values.length : ℝ)
  Real.sqrt variance

/-- One entry pushed by `detectAnomalies`. -/
structure Anomaly where
  index : ℕ
  previousValue : ℝ
  currentValue : ℝ
  difference : ℝ

/-- `detectAnomalies(values)` from the source: the loop
`for (let i = 1; i < values.length; i++)` is the index list
`List.range' 1 (values.length - 1)`, and each iteration pushes a record
exactly when `|values[i] − values[i−1]| > 2 * stdDev`. -/
noncomputable def detectAnomalies (values : List ℝ) : List Anomaly :=
  let stdDev := calculateStdDev values
  (List.range' 1 (values.length - 1)).filterMap (fun i =>
    let difference := |values.getD i 0 - values.getD (i - 1) 0|
    if 2 * stdDev < difference then
      some { index := i
             previousValue := values.getD (i - 1) 0
             currentValue := values.getD i 0
             difference := round2 difference }
    else
      none)

/-- One element of `futurePredictions` assembled by the `/predict`
handler. -/
structure ForecastPoint where
  month : String
  predictedTSH : ℝ
  TSH_CI_Lower : ℝ
  TSH_CI_Upper : ℝ
  predictedT3 : ℝ
  T3_CI_Lower : ℝ
  T3_CI_Upper : ℝ
  predictedT4 : ℝ
  T4_CI_Lower : ℝ
  T4_CI_Upper : ℝ

/-- The `anomalies` object of the `/predict` response. -/
structure AnomalyReport where
  TSH : List Anomaly
  T3 : List Anomaly
  T4 : List Anomaly

/-- The success payload of the `/predict` handler. -/
structure PredictionResult where
  latestValues : ThyroidRecord
  classification : String
  interpretation : String
  regressionPredictions : List ForecastPoint
  anomalies : AnomalyReport

/-- The body of the `/predict` handler after the length guard: per-hormone
regression models, standard deviations and anomaly lists; the loop
`for (let i = 1; i <= 3; i++)` with `x = startIndex + i − 1`; and the
classification/interpretation of the latest (last, since the query sorts
ascending by date) record. -/
noncomputable def analyze (render : ℝ → String) (records : List ThyroidRecord) :
    PredictionResult :=
  let TSHValues := records.map ThyroidRecord.TSH
  let T3Values := records.map ThyroidRecord.T3
  let T4Values := records.map ThyroidRecord.T4
  let tshModel := linearRegression TSHValues
  let t3Model := linearRegression T3Values
  let t4Model := linearRegression T4Values
  let tshStd := calculateStdDev TSHValues
  let t3Std := calculateStdDev T3Values
  let t4Std := calculateStdDev T4Values
  let startIndex := records.length
  let futurePredictions := ([1, 2, 3] : List ℕ).map (fun i : ℕ =>
    let x : ℝ := (startIndex : ℝ) + (i : ℝ) - 1
    let predictedTSH := tshModel.1 * x + tshModel.2
    let predictedT3 := t3Model.1 * x + t3Model.2
    let predictedT4 := t4Model.1 * x + t4Model.2
    { month := "Month " ++ toString i
      predictedTSH := round2 predictedTSH
      TSH_CI_Lower := round2 (predictedTSH - 1.96 * tshStd)
      TSH_CI_Upper := round2 (predictedTSH + 1.96 * tshStd)
      predictedT3 := round2 predictedT3
      T3_CI_Lower := round2 (predictedT3 - 1.96 * t3Std)
      T3_CI_Upper := round2 (predictedT3 + 1.96 * t3Std)
      predictedT4 := round2 predictedT4
      T4_CI_Lower := round2 (predictedT4 - 1.96 * t4Std)
      T4_CI_Upper := round2 (predictedT4 + 1.96 * t4Std) : ForecastPoint })
  let latest := records.getLastD default
  let classification := classifyThyroid latest.TSH latest.T3 latest.T4
  let interpretation := generateInterpretation render classification latest.TSH
  { latestValues := latest
    classification := classification
    interpretation := interpretation
    regressionPredictions := futurePredictions
    anomalies := { TSH := detectAnomalies TSHValues
                   T3 := detectAnomalies T3Values
                   T4 := detectAnomalies T4Values } }

/-- The `/predict` handler on the date-ordered record series: the
`records.length < 3` guard returns the 400 message, otherwise the analysis
result is returned. -/
noncomputable def predict (render : ℝ → String) (records : List ThyroidRecord) :
    Except String PredictionResult :=
  if records.length < 3 then
    Except.error "Minimum 3 records required"
  else
    Except.ok (analyze render records)

/-! ### Helper lemmas -/

/-- Sum of a function mapped over `List.range` equals the `Finset.range` sum. -/
theorem list_range_map_sum (f : ℕ → ℝ) (n : ℕ) :
    ((List.range n).map f).sum = ∑ i in Finset.range n, f i := by
  induction n with
  | zero => simp
  | succ n ih => simp [List.range_succ, Finset.sum_range_succ, ih]

/-- Sum of a function mapped over a list, re-indexed by positions. -/
theorem list_map_sum_getD (g : ℝ → ℝ) (l : List ℝ) :
    (l.map g).sum = ∑ i in Finset.range l.length, g (l.getD i 0) := by
  induction l with
  | nil => simp
  | cons a t ih => simp [Finset.sum_range_succ', ih, add_comm]

/-- Sum of a list of reals, re-indexed by positions. -/
theorem list_sum_eq_sum_getD (l : List ℝ) :
    l.sum = ∑ i in Finset.range l.length, l.getD i 0 := by
  simpa using list_map_sum_getD id l

/-- Membership characterization of `detectAnomalies`: the returned entries
are exactly the records built at indices `1 ≤ i < values.length` whose
adjacent difference strictly exceeds twice the full-series population
standard deviation. -/
theorem mem_detectAnomalies (values : List ℝ) (a : Anomaly) :
    a ∈ detectAnomalies values ↔
      1 ≤ a.index ∧ a.index < values.length ∧
      2 * calculateStdDev values <
        |values.getD a.index 0 - values.getD (a.index - 1) 0| ∧
      a.previousValue = values.getD (a.index - 1) 0 ∧
      a.currentValue = values.getD a.index 0 ∧
      a.difference = round2 |values.getD a.index 0 - values.getD (a.index - 1) 0| := by
  rw [detectAnomalies, List.mem_filterMap]
  constructor
  · rintro ⟨i, hi, hf⟩
    rw [List.mem_range'_1] at hi
    by_cases h : 2 * calculateStdDev values < |values.getD i 0 - values.getD (i - 1) 0|
    · rw [if_pos h] at hf
      obtain rfl := Option.some_injective _ hf
      refine ⟨hi.1, ?_, h, rfl, rfl, rfl⟩
      change i < values.length
      omega
    · rw [if_neg h] at hf
      exact absurd hf (by simp)
  · obtain ⟨ia, pa, ca, da⟩ := a
    rintro ⟨h1, h2, h3, hp, hc, hd⟩
    simp only at h1 h2 h3 hp hc hd
    subst hp hc hd
    refine ⟨ia, ?_, ?_⟩
    · rw [List.mem_range'_1]
      omega
    · rw [if_pos h3]

/-- Each entry produced by `detectAnomalies` carries the loop index it was
pushed at. -/
theorem detectAnomalies_index_eq (values : List ℝ) {i : ℕ} {b : Anomaly}
    (hb : b ∈ (fun i =>
      if 2 * calculateStdDev values <
          |values.getD i 0 - values.getD (i - 1) 0| then
        some { index := i
               previousValue := values.getD (i - 1) 0
               currentValue := values.getD i 0
               difference :=
                 round2 |values.getD i 0 - values.getD (i - 1) 0| : Anomaly }
      else none) i) :
    b.index = i := by
  beta_reduce at hb
  by_cases h : 2 * calculateStdDev values < |values.getD i 0 - values.getD (i - 1) 0|
  · rw [if_pos h] at hb
    obtain rfl := Option.mem_some_iff.1 hb
    rfl
  · rw [if_neg h] at hb
    exact absurd hb (by simp)

/-- Gauss sum: `2 · (0 + 1 + ⋯ + (n−1)) = n(n−1)`. -/
theorem sumIndices_closed (n : ℕ) : 2 * sumIndices n = (n : ℝ) * ((n : ℝ) - 1) := by
  induction n with
  | zero => simp [sumIndices]
  | succ n ih =>
    have h : sumIndices (n + 1) = sumIndices n + n := by
      simp [sumIndices, List.range_succ]
    rw [h]
    push_cast
    push_cast at ih
    ring_nf
    ring_nf at ih
    linarith

/-- Square pyramidal sum: `6 · (0² + 1² + ⋯ + (n−1)²) = n(n−1)(2n−1)`. -/
theorem sumSqIndices_closed (n : ℕ) :
    6 * sumSqIndices n = (n : ℝ) * ((n : ℝ) - 1) * (2 * (n : ℝ) - 1) := by
  induction n with
  | zero => simp [sumSqIndices]
  | succ n ih =>
    have h : sumSqIndices (n + 1) = sumSqIndices n + (n : ℝ) * n := by
      simp [sumSqIndices, List.range_succ]
    rw [h]
    push_cast
    push_cast at ih
    nlinarith [ih]

/-- Closed form of the slope denominator: `12·(n·Σx² − (Σx)²) = n²(n²−1)`. -/
theorem regressionDenominator_closed (n : ℕ) :
    12 * regressionDenominator n = (n : ℝ) ^ 2 * ((n : ℝ) ^ 2 - 1) := by
  have h1 := sumIndices_closed n
  have h2 := sumSqIndices_closed n
  rw [regressionDenominator]
  nlinarith [h1, h2]

/-! ### Claims -/

/-- C1: `classifyThyroid` is total — for every real triple it returns
exactly one of the four labels — and the rules are evaluated in fixed
priority order with first match winning: Normal iff rule 1 holds, then
Hypothyroidism, then Hyperthyroidism, else Borderline; in particular
`classifyThyroid 0.3 2.5 13 = "Hyperthyroidism"`, not Borderline. -/
theorem classifyThyroid_spec :
    (∀ TSH T3 T4 : ℝ,
      classifyThyroid TSH T3 T4 ∈
        ["Normal", "Hypothyroidism", "Hyperthyroidism",
         "Borderline / Needs Medical Review"] ∧
      (classifyThyroid TSH T3 T4 = "Normal" ↔
        0.4 ≤ TSH ∧ TSH ≤ 4.0 ∧ 0.8 ≤ T3 ∧ T3 ≤ 2.0 ∧ 5.0 ≤ T4 ∧ T4 ≤ 12.0) ∧
      (classifyThyroid TSH T3 T4 = "Hypothyroidism" ↔
        ¬(0.4 ≤ TSH ∧ TSH ≤ 4.0 ∧ 0.8 ≤ T3 ∧ T3 ≤ 2.0 ∧ 5.0 ≤ T4 ∧ T4 ≤ 12.0) ∧
        (4.0 < TSH ∧ (T3 < 0.8 ∨ T4 < 5.0))) ∧
      (classifyThyroid TSH T3 T4 = "Hyperthyroidism" ↔
        ¬(0.4 ≤ TSH ∧ TSH ≤ 4.0 ∧ 0.8 ≤ T3 ∧ T3 ≤ 2.0 ∧ 5.0 ≤ T4 ∧ T4 ≤ 12.0) ∧
        ¬(4.0 < TSH ∧ (T3 < 0.8 ∨ T4 < 5.0)) ∧
        (TSH < 0.4 ∧ (2.0 < T3 ∨ 12.0 < T4))) ∧
      (classifyThyroid TSH T3 T4 = "Borderline / Needs Medical Review" ↔
        ¬(0.4 ≤ TSH ∧ TSH ≤ 4.0 ∧ 0.8 ≤ T3 ∧ T3 ≤ 2.0 ∧ 5.0 ≤ T4 ∧ T4 ≤ 12.0) ∧
        ¬(4.0 < TSH ∧ (T3 < 0.8 ∨ T4 < 5.0)) ∧
        ¬(TSH < 0.4 ∧ (2.0 < T3 ∨ 12.0 < T4)))) ∧
    classifyThyroid 0.3 2.5 13 = "Hyperthyroidism" := by
  constructor
  · intro TSH T3 T4
    unfold classifyThyroid
    split_ifs with h1 h2 h3 <;> simp_all
  · unfold classifyThyroid
    rw [if_neg (by norm_num), if_neg (by norm_num), if_pos (by norm_num)]

/-- C2: on every non-empty list `linearRegression` computes the ordinary
least-squares slope `(n·Σxy − Σx·Σy) / (n·Σx² − (Σx)²)` over `x = 0..n−1`
and the intercept `(Σy − slope·Σx) / n`, and
`linearRegression [1,2,3,4,5] = (1, 1)` exactly. -/
theorem linearRegression_spec :
    (∀ values : List ℝ, values ≠ [] →
      (linearRegression values).1 =
        ((values.length : ℝ) *
            (∑ i in Finset.range values.length, (i : ℝ) * values.getD i 0) -
          (∑ i in Finset.range values.length, (i : ℝ)) *
            (∑ i in Finset.range values.length, values.getD i 0)) /
        ((values.length : ℝ) * (∑ i in Finset.range values.length, (i : ℝ) ^ 2) -
          (∑ i in Finset.range values.length, (i : ℝ)) ^ 2) ∧
      (linearRegression values).2 =
        ((∑ i in Finset.range values.length, values.getD i 0) -
          (linearRegression values).1 * (∑ i in Finset.range values.length, (i : ℝ))) /
        (values.length : ℝ)) ∧
    linearRegression [1, 2, 3, 4, 5] = (1, 1) := by
  constructor
  · intro values _
    have hXY : sumXY values =
        ∑ i in Finset.range values.length, (i : ℝ) * values.getD i 0 := by
      rw [sumXY]; exact list_range_map_sum _ _
    have hX : sumIndices values.length =
        ∑ i in Finset.range values.length, (i : ℝ) := by
      rw [sumIndices]; exact list_range_map_sum _ _
    have hXX : sumSqIndices values.length =
        ∑ i in Finset.range values.length, (i : ℝ) ^ 2 := by
      rw [sumSqIndices, list_range_map_sum]
      exact Finset.sum_congr rfl fun i _ => (pow_two _).symm
    have hY := list_sum_eq_sum_getD values
    simp only [linearRegression, regressionDenominator, hXY, hX, hXX, hY]
    constructor
    · rw [pow_two]
    · trivial
  · have h5 : List.range 5 = [0, 1, 2, 3, 4] := by decide
    simp [linearRegression, sumXY, sumIndices, sumSqIndices, regressionDenominator, h5]
    norm_num

/-- C2 witness: the slope/intercept formulas instantiated at the concrete
non-empty list `[2]`. -/
theorem linearRegression_spec_witness :
    (([(2 : ℝ)] : List ℝ) ≠ []) ∧
      ((linearRegression [(2 : ℝ)]).1 =
        (([(2 : ℝ)].length : ℝ) *
            (∑ i in Finset.range [(2 : ℝ)].length, (i : ℝ) * [(2 : ℝ)].getD i 0) -
          (∑ i in Finset.range [(2 : ℝ)].length, (i : ℝ)) *
            (∑ i in Finset.range [(2 : ℝ)].length, [(2 : ℝ)].getD i 0)) /
        (([(2 : ℝ)].length : ℝ) *
            (∑ i in Finset.range [(2 : ℝ)].length, (i : ℝ) ^ 2) -
          (∑ i in Finset.range [(2 : ℝ)].length, (i : ℝ)) ^ 2) ∧
      (linearRegression [(2 : ℝ)]).2 =
        ((∑ i in Finset.range [(2 : ℝ)].length, [(2 : ℝ)].getD i 0) -
          (linearRegression [(2 : ℝ)]).1 *
            (∑ i in Finset.range [(2 : ℝ)].length, (i : ℝ))) /
        ([(2 : ℝ)].length : ℝ)) :=
  ⟨by simp, linearRegression_spec.1 [(2 : ℝ)] (by simp)⟩

/-- C3: on every non-empty list `calculateStdDev` is the population
standard deviation — the square root of the mean (dividing by `n`, not
`n − 1`) of the squared deviations from the mean — and
`calculateStdDev [2,2,2,2] = 0`. -/
theorem calculateStdDev_spec :
    (∀ values : List ℝ, values ≠ [] →
      calculateStdDev values =
        Real.sqrt ((∑ i in Finset.range values.length,
            (values.getD i 0 - values.sum / (values.length : ℝ)) ^ 2) /
          (values.length : ℝ))) ∧
    calculateStdDev [2, 2, 2, 2] = 0 := by
  constructor
  · intro values _
    simp only [calculateStdDev, list_map_sum_getD]
  · simp [calculateStdDev]
    norm_num

/-- C3 witness: the population standard-deviation formula instantiated at
the concrete non-empty list `[2,2,2,2]`. -/
theorem calculateStdDev_spec_witness :
    (([(2 : ℝ), 2, 2, 2] : List ℝ) ≠ []) ∧
      calculateStdDev [(2 : ℝ), 2, 2, 2] =
        Real.sqrt ((∑ i in Finset.range [(2 : ℝ), 2, 2, 2].length,
            ([(2 : ℝ), 2, 2, 2].getD i 0 -
              [(2 : ℝ), 2, 2, 2].sum / ([(2 : ℝ), 2, 2, 2].length : ℝ)) ^ 2) /
          ([(2 : ℝ), 2, 2, 2].length : ℝ)) :=
  ⟨by simp, calculateStdDev_spec.1 [(2 : ℝ), 2, 2, 2] (by simp)⟩

/-- C4: `detectAnomalies` flags, in a single pass over `i = 1..n−1`, exactly
the pairs whose absolute adjacent difference strictly exceeds twice the
full-series population standard deviation (a difference exactly equal to
`2·stddev` is not flagged); each entry records the index, previous value,
current value and the difference rounded to two decimals; the output is in
ascending index order and index 0 is never flagged. -/
theorem detectAnomalies_spec (values : List ℝ) :
    (∀ a : Anomaly, a ∈ detectAnomalies values ↔
      1 ≤ a.index ∧ a.index < values.length ∧
      2 * calculateStdDev values <
        |values.getD a.index 0 - values.getD (a.index - 1) 0| ∧
      a.previousValue = values.getD (a.index - 1) 0 ∧
      a.currentValue = values.getD a.index 0 ∧
      a.difference = round2 |values.getD a.index 0 - values.getD (a.index - 1) 0|) ∧
    List.Pairwise (fun a b : Anomaly => a.index < b.index) (detectAnomalies values) ∧
    (∀ a ∈ detectAnomalies values, 1 ≤ a.index) := by
  refine ⟨mem_detectAnomalies values, ?_, ?_⟩
  · rw [detectAnomalies]
    refine List.Pairwise.filterMap _ ?_ (List.pairwise_lt_range' 1 (values.length - 1))
    intro i j hij b hb b' hb'
    rw [detectAnomalies_index_eq values hb, detectAnomalies_index_eq values hb']
    exact hij
  · intro a ha
    exact ((mem_detectAnomalies values a).1 ha).1

/-- C4 witness: order and no-index-0 instantiated on the series
`[10, 10, 10, 50]`. -/
theorem detectAnomalies_spec_witness :
    List.Pairwise (fun a b : Anomaly => a.index < b.index)
        (detectAnomalies [(10 : ℝ), 10, 10, 50]) ∧
      ∀ a ∈ detectAnomalies [(10 : ℝ), 10, 10, 50], 1 ≤ a.index :=
  (detectAnomalies_spec [(10 : ℝ), 10, 10, 50]).2

/-- C9: the regression denominator `n·Σx² − (Σx)²` over `x = 0..n−1` is
strictly positive for every `n ≥ 2` (hence in particular under the `n ≥ 3`
precondition the division in `linearRegression` is well-defined), and it is
zero exactly when `n ≤ 1`. -/
theorem regressionDenominator_spec :
    (∀ n : ℕ, 2 ≤ n → 0 < regressionDenominator n) ∧
    (∀ n : ℕ, n ≤ 1 → regressionDenominator n = 0) := by
  constructor
  · intro n h
    have hc := regressionDenominator_closed n
    have h2 : (2 : ℝ) ≤ (n : ℝ) := by exact_mod_cast h
    have h4 : (4 : ℝ) ≤ (n : ℝ) ^ 2 := by nlinarith
    nlinarith [hc, h4]
  · intro n h
    interval_cases n
    · simp [regressionDenominator, sumIndices, sumSqIndices]
    · simp [regressionDenominator, sumIndices, sumSqIndices, List.range_succ]

/-- C9 witness: positivity at `n = 3` and vanishing at `n = 1`. -/
theorem regressionDenominator_spec_witness :
    (2 ≤ 3 ∧ 0 < regressionDenominator 3) ∧ (1 ≤ 1 ∧ regressionDenominator 1 = 0) :=
  ⟨⟨by norm_num, regressionDenominator_spec.1 3 (by norm_num)⟩,
   ⟨le_refl 1, regressionDenominator_spec.2 1 (le_refl 1)⟩⟩

/-- Above the threshold the guard of `predict` is not taken. -/
theorem predict_ok (render : ℝ → String) (records : List ThyroidRecord)
    (h : 3 ≤ records.length) :
    predict render records = Except.ok (analyze render records) := by
  rw [predict, if_neg (by omega)]

/-- Below the threshold `predict` returns the 400 message. -/
theorem predict_error (render : ℝ → String) (records : List ThyroidRecord)
    (h : records.length < 3) :
    predict render records = Except.error "Minimum 3 records required" := by
  rw [predict, if_pos h]

/-- Rounding to two decimals is monotone. -/
theorem round2_mono {x y : ℝ} (h : x ≤ y) : round2 x ≤ round2 y := by
  rw [round2, round2]
  have hr : round (x * 100) ≤ round (y * 100) := by
    rw [round_eq, round_eq]
    exact Int.floor_le_floor (by linarith)
  have h100 : (0 : ℝ) < 100 := by norm_num
  exact (div_le_div_iff_of_pos_right h100).mpr (by exact_mod_cast hr)

/-- Rounding to two decimals is idempotent. -/
theorem round2_idem (x : ℝ) : round2 (round2 x) = round2 x := by
  rw [round2, round2, div_mul_cancel₀ _ (by norm_num : (100 : ℝ) ≠ 0), round_intCast]

/-- The population standard deviation is non-negative. -/
theorem calculateStdDev_nonneg (values : List ℝ) : 0 ≤ calculateStdDev values :=
  Real.sqrt_nonneg _

/-- The population standard deviation of a constant list is zero. -/
theorem calculateStdDev_const (l : List ℝ) (c : ℝ) (h : ∀ v ∈ l, v = c) :
    calculateStdDev l = 0 := by
  rcases eq_or_ne l [] with rfl | hne
  · simp [calculateStdDev]
  · have hlen : (l.length : ℝ) ≠ 0 := by
      simpa using fun h0 => hne (List.length_eq_zero.1 h0)
    have hmean : l.sum / (l.length : ℝ) = c := by
      rw [List.sum_eq_card_nsmul l c h, nsmul_eq_mul, mul_comm,
        mul_div_assoc, div_self hlen, mul_one]
    have hzero : (l.map (fun value => (value - l.sum / (l.length : ℝ)) ^ 2)).sum = 0 := by
      apply List.sum_eq_zero
      intro x hx
      obtain ⟨v, hv, rfl⟩ := List.mem_map.1 hx
      rw [hmean, h v hv]
      ring
    rw [calculateStdDev]
    simp only [hzero, zero_div, Real.sqrt_zero]

/-- C5: `predict` fails if and only if the series has fewer than 3 records,
fails exactly with the "Minimum 3 records required" message, and on at
least 3 records always succeeds; on failure no result payload (forecasts,
classification, anomalies) is produced, the error carrying only the
message. -/
theorem predict_precondition_spec (render : ℝ → String) (records : List ThyroidRecord) :
    ((∃ e, predict render records = Except.error e) ↔ records.length < 3) ∧
    (records.length < 3 →
      predict render records = Except.error "Minimum 3 records required") ∧
    (3 ≤ records.length → ∃ r, predict render records = Except.ok r) := by
  by_cases h : records.length < 3
  · exact ⟨⟨fun _ => h, fun _ => ⟨_, predict_error render records h⟩⟩,
      fun _ => predict_error render records h, fun h3 => absurd h3 (by omega)⟩
  · push_neg at h
    refine ⟨⟨?_, fun hlt => absurd hlt (by omega)⟩,
      fun hlt => absurd hlt (by omega), fun _ => ⟨_, predict_ok render records h⟩⟩
    rintro ⟨e, he⟩
    rw [predict_ok render records h] at he
    exact absurd he (by simp)

/-- C5 witness: a 2-record series is rejected with the exact message and a
3-record series succeeds. -/
theorem predict_precondition_spec_witness :
    ([⟨1, 1, 6⟩, ⟨1, 1, 6⟩] : List ThyroidRecord).length < 3 ∧
    predict (fun _ => "") [⟨1, 1, 6⟩, ⟨1, 1, 6⟩] =
      Except.error "Minimum 3 records required" ∧
    3 ≤ ([⟨1, 1, 6⟩, ⟨1, 1, 6⟩, ⟨1, 1, 6⟩] : List ThyroidRecord).length ∧
    ∃ r, predict (fun _ => "") [⟨1, 1, 6⟩, ⟨1, 1, 6⟩, ⟨1, 1, 6⟩] = Except.ok r := by
  have h2 : ([⟨1, 1, 6⟩, ⟨1, 1, 6⟩] : List ThyroidRecord).length < 3 := by simp
  have h3 : 3 ≤ ([⟨1, 1, 6⟩, ⟨1, 1, 6⟩, ⟨1, 1, 6⟩] : List ThyroidRecord).length := by simp
  exact ⟨h2, (predict_precondition_spec (fun _ => "") _).2.1 h2, h3,
    (predict_precondition_spec (fun _ => "") _).2.2 h3⟩

/-- C6: on a series of `n ≥ 3` records `predict` produces exactly 3
forecast points; for period `i = 1..3` it uses `x = n + i − 1`,
`predicted = slope·x + intercept` from each hormone's fitted model over the
whole series, and `lower/upper = predicted ∓ 1.96·stddev` with the
hormone's full-series population standard deviation, every value rounded to
two decimals. -/
theorem predict_forecast_spec (render : ℝ → String) (records : List ThyroidRecord)
    (h : 3 ≤ records.length) :
    ∃ r, predict render records = Except.ok r ∧
      r.regressionPredictions.length = 3 ∧
      r.regressionPredictions = ([1, 2, 3] : List ℕ).map (fun i : ℕ =>
        { month := "Month " ++ toString i
          predictedTSH := round2
            ((linearRegression (records.map ThyroidRecord.TSH)).1 *
                ((records.length : ℝ) + (i : ℝ) - 1) +
              (linearRegression (records.map ThyroidRecord.TSH)).2)
          TSH_CI_Lower := round2
            ((linearRegression (records.map ThyroidRecord.TSH)).1 *
                ((records.length : ℝ) + (i : ℝ) - 1) +
              (linearRegression (records.map ThyroidRecord.TSH)).2 -
              1.96 * calculateStdDev (records.map ThyroidRecord.TSH))
          TSH_CI_Upper := round2
            ((linearRegression (records.map ThyroidRecord.TSH)).1 *
                ((records.length : ℝ) + (i : ℝ) - 1) +
              (linearRegression (records.map ThyroidRecord.TSH)).2 +
              1.96 * calculateStdDev (records.map ThyroidRecord.TSH))
          predictedT3 := round2
            ((linearRegression (records.map ThyroidRecord.T3)).1 *
                ((records.length : ℝ) + (i : ℝ) - 1) +
              (linearRegression (records.map ThyroidRecord.T3)).2)
          T3_CI_Lower := round2
            ((linearRegression (records.map ThyroidRecord.T3)).1 *
                ((records.length : ℝ) + (i : ℝ) - 1) +
              (linearRegression (records.map ThyroidRecord.T3)).2 -
              1.96 * calculateStdDev (records.map ThyroidRecord.T3))
          T3_CI_Upper := round2
            ((linearRegression (records.map ThyroidRecord.T3)).1 *
                ((records.length : ℝ) + (i : ℝ) - 1) +
              (linearRegression (records.map ThyroidRecord.T3)).2 +
              1.96 * calculateStdDev (records.map ThyroidRecord.T3))
          predictedT4 := round2
            ((linearRegression (records.map ThyroidRecord.T4)).1 *
                ((records.length : ℝ) + (i : ℝ) - 1) +
              (linearRegression (records.map ThyroidRecord.T4)).2)
          T4_CI_Lower := round2
            ((linearRegression (records.map ThyroidRecord.T4)).1 *
                ((records.length : ℝ) + (i : ℝ) - 1) +
              (linearRegression (records.map ThyroidRecord.T4)).2 -
              1.96 * calculateStdDev (records.map ThyroidRecord.T4))
          T4_CI_Upper := round2
            ((linearRegression (records.map ThyroidRecord.T4)).1 *
                ((records.length : ℝ) + (i : ℝ) - 1) +
              (linearRegression (records.map ThyroidRecord.T4)).2 +
              1.96 * calculateStdDev (records.map ThyroidRecord.T4)) : ForecastPoint }) := by
  refine ⟨analyze render records, predict_ok render records h, ?_, rfl⟩
  show (([1, 2, 3] : List ℕ).map _).length = 3
  simp

/-- C6 witness: three forecast points are produced on a concrete 3-record
series. -/
theorem predict_forecast_spec_witness :
    3 ≤ ([⟨1, 1, 6⟩, ⟨2, 1.2, 7⟩, ⟨3, 1.4, 8⟩] : List ThyroidRecord).length ∧
    ∃ r, predict (fun _ => "") [⟨1, 1, 6⟩, ⟨2, 1.2, 7⟩, ⟨3, 1.4, 8⟩] = Except.ok r ∧
      r.regressionPredictions.length = 3 := by
  have h3 : 3 ≤ ([⟨1, 1, 6⟩, ⟨2, 1.2, 7⟩, ⟨3, 1.4, 8⟩] : List ThyroidRecord).length := by
    simp
  obtain ⟨r, hr, hlen, -⟩ := predict_forecast_spec (fun _ => "") _ h3
  exact ⟨h3, r, hr, hlen⟩

/-- C7: the classification and interpretation of `predict`'s result depend
only on the last record: they equal `classifyThyroid`/
`generateInterpretation` applied to the last record's values, two series
with the same last record agree on both, and `generateInterpretation` maps
each label to its fixed sentence, interpolating the TSH value only in the
Hypothyroidism and Hyperthyroidism sentences. -/
theorem predict_latest_only_spec (render : ℝ → String) (records : List ThyroidRecord)
    (h : 3 ≤ records.length) :
    ∃ r, predict render records = Except.ok r ∧
      r.classification =
        classifyThyroid (records.getLastD default).TSH (records.getLastD default).T3
          (records.getLastD default).T4 ∧
      r.interpretation =
        generateInterpretation render r.classification (records.getLastD default).TSH ∧
      (∀ records' : List ThyroidRecord, 3 ≤ records'.length →
        records'.getLastD default = records.getLastD default →
        ∃ r', predict render records' = Except.ok r' ∧
          r'.classification = r.classification ∧
          r'.interpretation = r.interpretation) ∧
      (∀ t : ℝ,
        generateInterpretation render "Normal" t =
          "Your thyroid hormone levels are within normal clinical range." ∧
        generateInterpretation render "Hypothyroidism" t =
          "Elevated TSH (" ++ render t ++
            ") suggests reduced thyroid activity. Consultation advised." ∧
        generateInterpretation render "Hyperthyroidism" t =
          "Low TSH (" ++ render t ++
            ") suggests overactive thyroid function. Medical evaluation recommended." ∧
        generateInterpretation render "Borderline / Needs Medical Review" t =
          "Borderline thyroid values detected. Further evaluation recommended.") := by
  refine ⟨analyze render records, predict_ok render records h, rfl, rfl, ?_, ?_⟩
  · intro records' h' hlast
    refine ⟨analyze render records', predict_ok render records' h', ?_, ?_⟩
    · show classifyThyroid (records'.getLastD default).TSH (records'.getLastD default).T3
          (records'.getLastD default).T4 =
        classifyThyroid (records.getLastD default).TSH (records.getLastD default).T3
          (records.getLastD default).T4
      rw [hlast]
    · show generateInterpretation render
          (classifyThyroid (records'.getLastD default).TSH (records'.getLastD default).T3
            (records'.getLastD default).T4) (records'.getLastD default).TSH =
        generateInterpretation render
          (classifyThyroid (records.getLastD default).TSH (records.getLastD default).T3
            (records.getLastD default).T4) (records.getLastD default).TSH
      rw [hlast]
  · intro t
    refine ⟨?_, ?_, ?_, ?_⟩
    · rw [generateInterpretation, if_pos rfl]
    · rw [generateInterpretation, if_neg (by decide), if_pos rfl]
    · rw [generateInterpretation, if_neg (by decide), if_neg (by decide), if_pos rfl]
    · rw [generateInterpretation, if_neg (by decide), if_neg (by decide), if_neg (by decide)]

/-- C7 witness: on a concrete series ending in a Normal record the
classification is that of the last record. -/
theorem predict_latest_only_spec_witness :
    3 ≤ ([⟨1, 1, 6⟩, ⟨2, 1.2, 7⟩, ⟨3, 1.4, 8⟩] : List ThyroidRecord).length ∧
    ∃ r, predict (fun _ => "") [⟨1, 1, 6⟩, ⟨2, 1.2, 7⟩, ⟨3, 1.4, 8⟩] = Except.ok r ∧
      r.classification =
        classifyThyroid
          (([⟨1, 1, 6⟩, ⟨2, 1.2, 7⟩, ⟨3, 1.4, 8⟩] : List ThyroidRecord).getLastD default).TSH
          (([⟨1, 1, 6⟩, ⟨2, 1.2, 7⟩, ⟨3, 1.4, 8⟩] : List ThyroidRecord).getLastD default).T3
          (([⟨1, 1, 6⟩, ⟨2, 1.2, 7⟩, ⟨3, 1.4, 8⟩] : List ThyroidRecord).getLastD default).T4 := by
  have h3 : 3 ≤ ([⟨1, 1, 6⟩, ⟨2, 1.2, 7⟩, ⟨3, 1.4, 8⟩] : List ThyroidRecord).length := by
    simp
  obtain ⟨r, hr, hc, -⟩ := predict_latest_only_spec (fun _ => "") _ h3
  exact ⟨h3, r, hr, hc⟩

/-- Any value within half a cent of zero rounds to zero at two decimals. -/
theorem round2_eq_zero {x : ℝ} (h1 : -(0.005 : ℝ) ≤ x) (h2 : x < 0.005) :
    round2 x = 0 := by
  rw [round2, round_eq]
  have hf : ⌊x * 100 + 1 / 2⌋ = 0 := by
    rw [Int.floor_eq_zero_iff]
    constructor <;> simp <;> linarith
  rw [hf]
  norm_num

/-- Concrete evaluation: the symmetric series used below has slope and
intercept zero. -/
theorem linearRegression_collapse_eval :
    linearRegression [(0.001 : ℝ), -0.001, -0.001, 0.001] = (0, 0) := by
  have hr : List.range 4 = [0, 1, 2, 3] := by decide
  simp [linearRegression, sumXY, sumIndices, sumSqIndices, regressionDenominator, hr]
  norm_num

/-- Concrete evaluation: that series has population standard deviation
`0.001`. -/
theorem calculateStdDev_collapse_eval :
    calculateStdDev [(0.001 : ℝ), -0.001, -0.001, 0.001] = 0.001 := by
  rw [calculateStdDev]
  norm_num [List.sum_cons, List.sum_nil]
  have h : Real.sqrt 1000000 = 1000 := by
    rw [show (1000000 : ℝ) = 1000 ^ 2 by norm_num]
    exact Real.sqrt_sq (by norm_num)
  rw [h]
  norm_num

/-- C10 counterexample: on the non-constant TSH series
`[0.001, −0.001, −0.001, 0.001]` every forecast point has
`TSH_CI_Lower = predictedTSH = TSH_CI_Upper = 0` after rounding, so the
interval collapses although the series is not constant — refuting the
"collapses exactly when the series is constant" part of the claim. -/
theorem predict_ci_collapse_counterexample :
    Except.map (fun r => r.regressionPredictions.map (fun p =>
        (p.predictedTSH, p.TSH_CI_Lower, p.TSH_CI_Upper)))
      (predict (fun _ => "")
        [⟨0.001, 1, 6⟩, ⟨-0.001, 1, 6⟩, ⟨-0.001, 1, 6⟩, ⟨0.001, 1, 6⟩]) =
      Except.ok [(0, 0, 0), (0, 0, 0), (0, 0, 0)] ∧
    ¬ ∃ c : ℝ, ∀ v ∈ ([⟨0.001, 1, 6⟩, ⟨-0.001, 1, 6⟩, ⟨-0.001, 1, 6⟩, ⟨0.001, 1, 6⟩] :
        List ThyroidRecord).map ThyroidRecord.TSH, v = c := by
  constructor
  · rw [predict_ok _ _ (by simp)]
    show Except.ok _ = _
    have hmap : ([⟨0.001, 1, 6⟩, ⟨-0.001, 1, 6⟩, ⟨-0.001, 1, 6⟩, ⟨0.001, 1, 6⟩] :
        List ThyroidRecord).map ThyroidRecord.TSH = [(0.001 : ℝ), -0.001, -0.001, 0.001] := by
      simp
    simp only [analyze, hmap, linearRegression_collapse_eval, calculateStdDev_collapse_eval]
    simp only [List.map, Prod.mk.injEq, List.cons.injEq, and_true, Except.ok.injEq]
    repeat' apply And.intro
    all_goals (apply round2_eq_zero <;> norm_num)
  · rintro ⟨c, hc⟩
    have h1 := hc 0.001 (by simp)
    have h2 := hc (-0.001) (by simp)
    rw [h1] at h2
    have hc0 : c = 0 := by linarith
    rw [hc0] at h1
    norm_num at h1

/-- The forecast list assembled by `analyze`, written out explicitly. -/
theorem analyze_regressionPredictions (render : ℝ → String) (records : List ThyroidRecord) :
    (analyze render records).regressionPredictions = ([1, 2, 3] : List ℕ).map (fun i : ℕ =>
      { month := "Month " ++ toString i
        predictedTSH := round2
          ((linearRegression (records.map ThyroidRecord.TSH)).1 *
              ((records.length : ℝ) + (i : ℝ) - 1) +
            (linearRegression (records.map ThyroidRecord.TSH)).2)
        TSH_CI_Lower := round2
          ((linearRegression (records.map ThyroidRecord.TSH)).1 *
              ((records.length : ℝ) + (i : ℝ) - 1) +
            (linearRegression (records.map ThyroidRecord.TSH)).2 -
            1.96 * calculateStdDev (records.map ThyroidRecord.TSH))
        TSH_CI_Upper := round2
          ((linearRegression (records.map ThyroidRecord.TSH)).1 *
              ((records.length : ℝ) + (i : ℝ) - 1) +
            (linearRegression (records.map ThyroidRecord.TSH)).2 +
            1.96 * calculateStdDev (records.map ThyroidRecord.TSH))
        predictedT3 := round2
          ((linearRegression (records.map ThyroidRecord.T3)).1 *
              ((records.length : ℝ) + (i : ℝ) - 1) +
            (linearRegression (records.map ThyroidRecord.T3)).2)
        T3_CI_Lower := round2
          ((linearRegression (records.map ThyroidRecord.T3)).1 *
              ((records.length : ℝ) + (i : ℝ) - 1) +
            (linearRegression (records.map ThyroidRecord.T3)).2 -
            1.96 * calculateStdDev (records.map ThyroidRecord.T3))
        T3_CI_Upper := round2
          ((linearRegression (records.map ThyroidRecord.T3)).1 *
              ((records.length : ℝ) + (i : ℝ) - 1) +
            (linearRegression (records.map ThyroidRecord.T3)).2 +
            1.96 * calculateStdDev (records.map ThyroidRecord.T3))
        predictedT4 := round2
          ((linearRegression (records.map ThyroidRecord.T4)).1 *
              ((records.length : ℝ) + (i : ℝ) - 1) +
            (linearRegression (records.map ThyroidRecord.T4)).2)
        T4_CI_Lower := round2
          ((linearRegression (records.map ThyroidRecord.T4)).1 *
              ((records.length : ℝ) + (i : ℝ) - 1) +
            (linearRegression (records.map ThyroidRecord.T4)).2 -
            1.96 * calculateStdDev (records.map ThyroidRecord.T4))
        T4_CI_Upper := round2
          ((linearRegression (records.map ThyroidRecord.T4)).1 *
              ((records.length : ℝ) + (i : ℝ) - 1) +
            (linearRegression (records.map ThyroidRecord.T4)).2 +
            1.96 * calculateStdDev (records.map ThyroidRecord.T4)) : ForecastPoint }) := rfl

/-- C8 counterexample: the handler echoes the latest record unrounded —
with last TSH `1.005` the output's `latestValues.TSH` is `1.005`, which is
not a two-decimal value, refuting "every numeric field is rounded". -/
theorem predict_rounding_counterexample :
    Except.map (fun r => r.latestValues.TSH)
      (predict (fun _ => "") [⟨1, 1, 6⟩, ⟨1, 1, 6⟩, ⟨1.005, 1, 6⟩]) =
      Except.ok 1.005 ∧
    round2 (1.005 : ℝ) ≠ 1.005 := by
  constructor
  · rw [predict_ok _ _ (by simp)]
    rfl
  · intro hcontra
    rw [round2, show (1.005 : ℝ) * 100 = 100.5 by norm_num,
      show round (100.5 : ℝ) = 101 by rw [round_eq]; norm_num] at hcontra
    norm_num at hcontra

/-- C8 (amended): all nine forecast values of every forecast point and
every anomaly `difference` are rounded to two decimals (fixed points of
`round2`), while `latestValues` and each anomaly's
`previousValue`/`currentValue` are echoed raw from the input series. -/
theorem predict_rounded_fields_spec (render : ℝ → String) (records : List ThyroidRecord)
    (h : 3 ≤ records.length) :
    ∃ r, predict render records = Except.ok r ∧
      r.latestValues = records.getLastD default ∧
      (∀ p ∈ r.regressionPredictions,
        round2 p.predictedTSH = p.predictedTSH ∧
        round2 p.TSH_CI_Lower = p.TSH_CI_Lower ∧
        round2 p.TSH_CI_Upper = p.TSH_CI_Upper ∧
        round2 p.predictedT3 = p.predictedT3 ∧
        round2 p.T3_CI_Lower = p.T3_CI_Lower ∧
        round2 p.T3_CI_Upper = p.T3_CI_Upper ∧
        round2 p.predictedT4 = p.predictedT4 ∧
        round2 p.T4_CI_Lower = p.T4_CI_Lower ∧
        round2 p.T4_CI_Upper = p.T4_CI_Upper) ∧
      (∀ a ∈ r.anomalies.TSH,
        round2 a.difference = a.difference ∧
        a.previousValue = (records.map ThyroidRecord.TSH).getD (a.index - 1) 0 ∧
        a.currentValue = (records.map ThyroidRecord.TSH).getD a.index 0) ∧
      (∀ a ∈ r.anomalies.T3,
        round2 a.difference = a.difference ∧
        a.previousValue = (records.map ThyroidRecord.T3).getD (a.index - 1) 0 ∧
        a.currentValue = (records.map ThyroidRecord.T3).getD a.index 0) ∧
      (∀ a ∈ r.anomalies.T4,
        round2 a.difference = a.difference ∧
        a.previousValue = (records.map ThyroidRecord.T4).getD (a.index - 1) 0 ∧
        a.currentValue = (records.map ThyroidRecord.T4).getD a.index 0) := by
  refine ⟨analyze render records, predict_ok render records h, rfl, ?_, ?_, ?_, ?_⟩
  · intro p hp
    rw [analyze_regressionPredictions] at hp
    obtain ⟨i, -, rfl⟩ := List.mem_map.1 hp
    exact ⟨round2_idem _, round2_idem _, round2_idem _, round2_idem _, round2_idem _,
      round2_idem _, round2_idem _, round2_idem _, round2_idem _⟩
  · intro a ha
    obtain ⟨-, -, -, hp, hc, hd⟩ :=
      (mem_detectAnomalies (records.map ThyroidRecord.TSH) a).1 ha
    exact ⟨by rw [hd]; exact round2_idem _, hp, hc⟩
  · intro a ha
    obtain ⟨-, -, -, hp, hc, hd⟩ :=
      (mem_detectAnomalies (records.map ThyroidRecord.T3) a).1 ha
    exact ⟨by rw [hd]; exact round2_idem _, hp, hc⟩
  · intro a ha
    obtain ⟨-, -, -, hp, hc, hd⟩ :=
      (mem_detectAnomalies (records.map ThyroidRecord.T4) a).1 ha
    exact ⟨by rw [hd]; exact round2_idem _, hp, hc⟩

/-- C10 (amended): in every forecast point the confidence bounds bracket
the prediction for each hormone (`CI_Lower ≤ predicted ≤ CI_Upper`, since
the population standard deviation is non-negative and rounding is
monotone), and if a hormone's series is constant its interval collapses to
`lower = predicted = upper`. -/
theorem predict_ci_bracket_spec (render : ℝ → String) (records : List ThyroidRecord)
    (h : 3 ≤ records.length) :
    ∃ r, predict render records = Except.ok r ∧
      (∀ p ∈ r.regressionPredictions,
        p.TSH_CI_Lower ≤ p.predictedTSH ∧ p.predictedTSH ≤ p.TSH_CI_Upper ∧
        p.T3_CI_Lower ≤ p.predictedT3 ∧ p.predictedT3 ≤ p.T3_CI_Upper ∧
        p.T4_CI_Lower ≤ p.predictedT4 ∧ p.predictedT4 ≤ p.T4_CI_Upper) ∧
      ((∃ c : ℝ, ∀ v ∈ records.map ThyroidRecord.TSH, v = c) →
        ∀ p ∈ r.regressionPredictions,
          p.TSH_CI_Lower = p.predictedTSH ∧ p.TSH_CI_Upper = p.predictedTSH) ∧
      ((∃ c : ℝ, ∀ v ∈ records.map ThyroidRecord.T3, v = c) →
        ∀ p ∈ r.regressionPredictions,
          p.T3_CI_Lower = p.predictedT3 ∧ p.T3_CI_Upper = p.predictedT3) ∧
      ((∃ c : ℝ, ∀ v ∈ records.map ThyroidRecord.T4, v = c) →
        ∀ p ∈ r.regressionPredictions,
          p.T4_CI_Lower = p.predictedT4 ∧ p.T4_CI_Upper = p.predictedT4) := by
  refine ⟨analyze render records, predict_ok render records h, ?_, ?_, ?_, ?_⟩
  · intro p hp
    rw [analyze_regressionPredictions] at hp
    obtain ⟨i, -, rfl⟩ := List.mem_map.1 hp
    have h1 : (0 : ℝ) ≤ 1.96 * calculateStdDev (records.map ThyroidRecord.TSH) :=
      mul_nonneg (by norm_num) (calculateStdDev_nonneg _)
    have h2 : (0 : ℝ) ≤ 1.96 * calculateStdDev (records.map ThyroidRecord.T3) :=
      mul_nonneg (by norm_num) (calculateStdDev_nonneg _)
    have h3 : (0 : ℝ) ≤ 1.96 * calculateStdDev (records.map ThyroidRecord.T4) :=
      mul_nonneg (by norm_num) (calculateStdDev_nonneg _)
    exact ⟨round2_mono (by linarith), round2_mono (by linarith),
      round2_mono (by linarith), round2_mono (by linarith),
      round2_mono (by linarith), round2_mono (by linarith)⟩
  · rintro ⟨c, hc⟩ p hp
    have hs := calculateStdDev_const (records.map ThyroidRecord.TSH) c hc
    rw [analyze_regressionPredictions] at hp
    obtain ⟨i, -, rfl⟩ := List.mem_map.1 hp
    dsimp only
    rw [hs]
    norm_num
  · rintro ⟨c, hc⟩ p hp
    have hs := calculateStdDev_const (records.map ThyroidRecord.T3) c hc
    rw [analyze_regressionPredictions] at hp
    obtain ⟨i, -, rfl⟩ := List.mem_map.1 hp
    dsimp only
    rw [hs]
    norm_num
  · rintro ⟨c, hc⟩ p hp
    have hs := calculateStdDev_const (records.map ThyroidRecord.T4) c hc
    rw [analyze_regressionPredictions] at hp
    obtain ⟨i, -, rfl⟩ := List.mem_map.1 hp
    dsimp only
    rw [hs]
    norm_num


/-- C8 witness: the raw echo of the latest record on a concrete 3-record
series. -/
theorem predict_rounded_fields_spec_witness :
    3 ≤ ([⟨1, 1, 6⟩, ⟨2, 1.2, 7⟩, ⟨3, 1.4, 8⟩] : List ThyroidRecord).length ∧
    ∃ r, predict (fun _ => "") [⟨1, 1, 6⟩, ⟨2, 1.2, 7⟩, ⟨3, 1.4, 8⟩] = Except.ok r ∧
      r.latestValues =
        ([⟨1, 1, 6⟩, ⟨2, 1.2, 7⟩, ⟨3, 1.4, 8⟩] : List ThyroidRecord).getLastD default := by
  have h3 : 3 ≤ ([⟨1, 1, 6⟩, ⟨2, 1.2, 7⟩, ⟨3, 1.4, 8⟩] : List ThyroidRecord).length := by
    simp
  obtain ⟨r, hr, hl, -⟩ := predict_rounded_fields_spec (fun _ => "") _ h3
  exact ⟨h3, r, hr, hl⟩

/-- C10 witness: the lower bound is below the prediction on a concrete
3-record series. -/
theorem predict_ci_bracket_spec_witness :
    3 ≤ ([⟨1, 1, 6⟩, ⟨2, 1.2, 7⟩, ⟨3, 1.4, 8⟩] : List ThyroidRecord).length ∧
    ∃ r, predict (fun _ => "") [⟨1, 1, 6⟩, ⟨2, 1.2, 7⟩, ⟨3, 1.4, 8⟩] = Except.ok r ∧
      ∀ p ∈ r.regressionPredictions, p.TSH_CI_Lower ≤ p.predictedTSH := by
  have h3 : 3 ≤ ([⟨1, 1, 6⟩, ⟨2, 1.2, 7⟩, ⟨3, 1.4, 8⟩] : List ThyroidRecord).length := by
    simp
  obtain ⟨r, hr, hb, -⟩ := predict_ci_bracket_spec (fun _ => "") _ h3
  exact ⟨h3, r, hr, fun p hp => (hb p hp).1⟩

end ThyroidAI
